import Mathlib

/-!
Shallow embedding of the AML transaction-monitoring core of the repository:
the crypto variant (`Transaction-Analysis-Tool/Crypto-AML-Analysis-Tool.py`)
and the fiat variant (`Transaction-Monitoring/Transaction-Monitoring-System.py`),
with their configuration files, as Lean definitions, together with theorems
settling the spec's claims about them.

Modelling conventions:
* a SQLite table is a `List` of rows; `SELECT ... WHERE p` is `List.filter`;
* timestamps are `Int` seconds since the epoch (the fiat SQL compares
  `strftime('%s', ...)` values, i.e. epoch seconds); monetary amounts are `Int`;
* a Python exception is an `Except` error value; a `try/except` block that
  logs and returns is a `match` on that value;
* `logging` calls have no observable effect on the stores and are omitted;
  `validate_transaction_data` only logs warnings (it never drops a row from
  the batch) and is likewise omitted from the state model.
-/

deriving instance DecidableEq for Except

namespace Crypto

/-- Error values standing for the Python exceptions the crypto variant can
raise; the scripts only ever catch them as bare `Exception`, so the payload
is documentation, not behaviour. -/
inductive PyErr where
  /-- `KeyError` (or `networkx.NetworkXError` wrapping it) raised by
  `nx.from_pandas_edgelist` when the frame lacks a named column. -/
  | missingColumn : String → PyErr
  /-- Exception raised inside `detect_frequent_transactions`' lambda:
  `DataFrame.diff` subtracts the string-typed address columns (`TypeError`),
  and even for single-row groups the subsequent `.transaction_date` attribute
  access fails (`AttributeError`) because that column was just moved to the
  index by `set_index`. -/
  | diffOnIndexedFrame : PyErr
deriving Repr, DecidableEq

/-- Row of the `crypto_transactions` table (`SQlite DB Init.py`:
`transaction_id TEXT PRIMARY KEY`, addresses `TEXT`, `value_usd`,
`transaction_date TIMESTAMP`), plus the `processed` status column the
monitoring script reads and writes (`WHERE processed = 0` /
`SET processed = 1`). -/
structure Txn where
  transaction_id : String
  from_address : String
  to_address : String
  value_usd : Int
  transaction_date : Int
  processed : Bool
deriving Repr, DecidableEq

/-- Row of the `crypto_alerts` table as written by `log_alert`. -/
structure CryptoAlert where
  transaction_id : String
  alert_type : String
  risk_score : Int
deriving Repr, DecidableEq

/-- Configuration constants of `Transaction-Analysis-Tool/config.py`. -/
structure CryptoConfig where
  THRESHOLD_VALUE_USD : Int
  HIGH_RISK_ADDRESSES : List String
  FREQUENT_TXN_LIMIT : Nat
  GRAPH_ANALYSIS_LIMIT : Nat
deriving Repr

/-- The literal values of `Transaction-Analysis-Tool/config.py`. -/
def defaultCryptoConfig : CryptoConfig :=
  { THRESHOLD_VALUE_USD := 10000
    HIGH_RISK_ADDRESSES := ["1DkqkW9i9szEdSa7ZrM4q2eA6kWE2w2DSm",
                            "1HB5XMLmzFVj8ALj6mfBsbifRoD4miY36v"]
    FREQUENT_TXN_LIMIT := 5
    GRAPH_ANALYSIS_LIMIT := 100 }

/-- The database state the crypto script mutates: the active transaction
table, the alerts table and the archive table. -/
structure CryptoDB where
  crypto_transactions : List Txn
  crypto_alerts : List CryptoAlert
  crypto_transactions_archive : List Txn
deriving Repr, DecidableEq

/-- Line 58: `transactions[transactions['value_usd'] > THRESHOLD_VALUE_USD]`. -/
def flagged_threshold (cfg : CryptoConfig) (transactions : List Txn) : List Txn :=
  transactions.filter (fun t => decide (t.value_usd > cfg.THRESHOLD_VALUE_USD))

/-- Lines 59-62: rows whose `from_address` or `to_address` is in
`HIGH_RISK_ADDRESSES`. -/
def flagged_high_risk (cfg : CryptoConfig) (transactions : List Txn) : List Txn :=
  transactions.filter (fun t =>
    cfg.HIGH_RISK_ADDRESSES.contains t.from_address ||
    cfg.HIGH_RISK_ADDRESSES.contains t.to_address)

/-- Lines 77-84, `detect_frequent_transactions`. The lambda applied to each
`from_address` group evaluates
`x.set_index('transaction_date').sort_index().diff().transaction_date`:
`set_index` removes `transaction_date` from the columns, `DataFrame.diff`
then tries to subtract the string columns `from_address`/`to_address`
row-by-row, raising `TypeError` for any group of two or more rows, and for
single-row groups (where `diff` performs no subtraction) the attribute
access `.transaction_date` raises `AttributeError`, since attribute access
resolves against the columns, not the index. Hence the function raises on
every non-empty input; the exception propagates to the caller's
`except Exception` handler. It is never called on an empty batch
(`analyze_transactions` returns early). -/
def detect_frequent_transactions (transactions : List Txn) :
    Except PyErr (List Txn) :=
  if transactions.isEmpty then Except.ok []
  else Except.error PyErr.diffOnIndexedFrame

/-- Node set of the entity graph `nx.from_pandas_edgelist(transactions,
'from_address', 'to_address', ['value_usd'])`: every address occurring as an
endpoint. -/
def cryptoNodes (transactions : List Txn) : List String :=
  (transactions.flatMap (fun t => [t.from_address, t.to_address])).dedup

/-- Adjacency of the undirected entity graph: some transaction of the batch
joins `u` and `v` (in either direction). -/
def isEdge (transactions : List Txn) (u v : String) : Bool :=
  transactions.any (fun t =>
    (t.from_address == u && t.to_address == v) ||
    (t.from_address == v && t.to_address == u))

/-- Collapsed undirected edge list of the graph: `networkx.Graph` keeps one
edge per unordered address pair (a later row with the same pair only
overwrites the edge's `value_usd` attribute). The first occurrence fixes the
stored orientation. -/
def graphEdges (transactions : List Txn) : List (String × String) :=
  transactions.foldl (fun acc t =>
    if acc.any (fun e =>
        (e.1 == t.from_address && e.2 == t.to_address) ||
        (e.1 == t.to_address && e.2 == t.from_address))
    then acc
    else acc ++ [(t.from_address, t.to_address)]) []

/-- One step of breadth-first closure: add every node adjacent to the
current set. -/
def expandNodes (transactions : List Txn) (s : List String) : List String :=
  (s ++ (cryptoNodes transactions).filter
      (fun v => s.any (fun u => isEdge transactions u v))).dedup

/-- Connected component of node `v` in the entity graph, computed by
iterating the closure step once per node of the graph (enough to saturate);
this is `nx.connected_components` restricted to the component containing
`v`. The result is duplicate-free, so its length is the component's node
count. -/
def componentOf (transactions : List Txn) (v : String) : List String :=
  (expandNodes transactions)^[(cryptoNodes transactions).length] [v]

/-- Row of the DataFrame returned by `detect_complex_patterns`: columns
`from_address`, `to_address` and the `transaction_id` extracted from the
edge-data dict. -/
structure EdgeRow where
  from_address : String
  to_address : String
  transaction_id : Option String
deriving Repr, DecidableEq

/-- Lines 86-106, `detect_complex_patterns`. If the batch has more rows than
`GRAPH_ANALYSIS_LIMIT` it returns an empty frame (logged skip). Otherwise it
builds the undirected entity graph, takes its connected components, and for
every component with more than `FREQUENT_TXN_LIMIT` nodes collects the
component's edges. The edge data stored by line 92 is only
`['value_usd']`, so line 103's `x.get('transaction_id')` yields `None` for
every edge: the `transaction_id` column of the result is identically
`None`. -/
def detect_complex_patterns (cfg : CryptoConfig) (transactions : List Txn) :
    List EdgeRow :=
  if transactions.length > cfg.GRAPH_ANALYSIS_LIMIT then []
  else
    ((graphEdges transactions).filter (fun e =>
        decide ((componentOf transactions e.1).length > cfg.FREQUENT_TXN_LIMIT))).map
      (fun e => { from_address := e.1, to_address := e.2, transaction_id := none })

/-- Lines 108-117, `calculate_risk_score`. The additive weights of lines
111-114 are applied, but line 115 then evaluates
`detect_complex_patterns(pd.DataFrame())['transaction_id']`:
`pd.DataFrame()` has no columns at all, so inside `detect_complex_patterns`
the call `nx.from_pandas_edgelist(..., 'from_address', 'to_address',
['value_usd'])` raises on the missing columns before any score can be
returned. The function therefore raises on every input and `min(score, 100)`
on line 117 is unreachable. -/
def calculate_risk_score (cfg : CryptoConfig) (transaction : Txn) :
    Except PyErr Int :=
  let score : Int := 0
  let score := if transaction.value_usd > cfg.THRESHOLD_VALUE_USD then score + 30 else score
  let score := if cfg.HIGH_RISK_ADDRESSES.contains transaction.from_address ||
                  cfg.HIGH_RISK_ADDRESSES.contains transaction.to_address
               then score + 50 else score
  let _ := min score 100
  Except.error (PyErr.missingColumn "from_address")

/-- Line 121: `'High Risk' if risk_score >= 70 else 'Moderate Risk'`. -/
def alert_type_of (risk_score : Int) : String :=
  if risk_score ≥ 70 then "High Risk" else "Moderate Risk"

/-- Lines 119-130, `log_alert`: inserts one row into `crypto_alerts` inside
its own `try/except`; a failing insert (modelled by the `fails` predicate)
is only logged and leaves the database unchanged. -/
def log_alert (fails : CryptoAlert → Bool) (transaction_id : String)
    (risk_score : Int) (db : CryptoDB) : CryptoDB :=
  let a : CryptoAlert :=
    { transaction_id := transaction_id
      alert_type := alert_type_of risk_score
      risk_score := risk_score }
  if fails a then db
  else { db with crypto_alerts := db.crypto_alerts ++ [a] }

/-- Lines 132-142, `mark_transactions_processed`: one transactional
`UPDATE ... SET processed = 1` per id of the batch. -/
def mark_transactions_processed (ids : List String) (db : CryptoDB) : CryptoDB :=
  { db with crypto_transactions := db.crypto_transactions.map (fun t =>
      if ids.contains t.transaction_id then { t with processed := true } else t) }

/-- Lines 68-71, the scoring-and-alerting loop over `all_flagged`: each row
is scored and, if scoring succeeds, `log_alert` is called (each alert is
committed individually by its `with conn:` block). An exception from the
scorer escapes the loop immediately; the returned flag records whether that
happened, and the returned state keeps the alerts already committed. -/
def processFlagged (score : Txn → Except PyErr Int) (fails : CryptoAlert → Bool) :
    List Txn → CryptoDB → CryptoDB × Bool
  | [], db => (db, false)
  | t :: rest, db =>
    match score t with
    | Except.error _ => (db, true)
    | Except.ok s => processFlagged score fails rest (log_alert fails t.transaction_id s db)

/-- Lines 68-72 as a whole: run the scoring/alerting loop, then — only if no
exception escaped it — mark every id of the fetched batch processed. When
the loop raised, control jumps to the `except` clause on line 74, which only
logs, so the state at the moment of the exception is final. -/
def alertAndMark (score : Txn → Except PyErr Int) (fails : CryptoAlert → Bool)
    (all_flagged : List Txn) (batchIds : List String) (db : CryptoDB) : CryptoDB :=
  match processFlagged score fails all_flagged db with
  | (db1, true) => db1
  | (db1, false) => mark_transactions_processed batchIds db1

/-- Lines 47-75, `analyze_transactions`: fetch the unprocessed batch, return
early if it is empty, run the four detectors, union-and-dedup the flagged
rows, score/alert each, and mark the whole batch processed — all inside one
`try`. Since `detect_frequent_transactions` raises on every non-empty batch
(line 63), the `Except.ok` branch below is unreachable; it is still modelled
for the three full-row detectors. The source's concat also includes the
`detect_complex_patterns` rows, which carry only the two address columns and
a `None` id (the other columns become `NaN` under `pd.concat`); those
partial rows are omitted here, inside this dead branch, because they are not
`Txn` rows. -/
def analyze_transactions (cfg : CryptoConfig) (fails : CryptoAlert → Bool)
    (db : CryptoDB) : CryptoDB :=
  let transactions := db.crypto_transactions.filter (fun t => !t.processed)
  if transactions.isEmpty then db
  else
    match detect_frequent_transactions transactions with
    | Except.error _ => db
    | Except.ok flagged_frequent =>
      let all_flagged :=
        (flagged_threshold cfg transactions ++ flagged_high_risk cfg transactions ++
          flagged_frequent).dedup
      alertAndMark (calculate_risk_score cfg) fails all_flagged
        (transactions.map (fun t => t.transaction_id)) db

/-- Lines 144-160, `archive_old_transactions`: within one transaction,
`INSERT INTO crypto_transactions_archive SELECT * FROM crypto_transactions
WHERE transaction_date < cutoff` followed by `DELETE FROM
crypto_transactions WHERE transaction_date < cutoff`, where the cutoff is
`now - ARCHIVE_AGE_DAYS`. -/
def archive_old_transactions (archive_date : Int) (db : CryptoDB) : CryptoDB :=
  { db with
    crypto_transactions_archive := db.crypto_transactions_archive ++
      db.crypto_transactions.filter (fun t => decide (t.transaction_date < archive_date))
    crypto_transactions :=
      db.crypto_transactions.filter (fun t => !decide (t.transaction_date < archive_date)) }

end Crypto

namespace Fiat

/-- Row of the fiat `transactions` table (`SQLite DB Init.py`:
`transaction_id INTEGER PRIMARY KEY`, `account_id INTEGER`, `amount`,
`transaction_date TIMESTAMP`, `country VARCHAR`, `payee_id INTEGER`,
`processed BOOLEAN DEFAULT 0`). -/
structure FiatTxn where
  transaction_id : Nat
  account_id : Nat
  amount : Int
  transaction_date : Int
  country : String
  payee_id : Nat
  processed : Bool
deriving Repr, DecidableEq

/-- Row of the fiat `alerts` table as written by `log_alert`. -/
structure FiatAlert where
  transaction_id : Nat
  alert_type : String
deriving Repr, DecidableEq

/-- Configuration constants of `Transaction-Monitoring/config.py` used by
`generate_alerts`. -/
structure FiatConfig where
  HIGH_RISK_COUNTRIES : List String
  TRANSACTION_FREQUENCY_LIMIT : Nat
  ROUND_AMOUNT_MULTIPLE : Int
deriving Repr

/-- The literal values of `Transaction-Monitoring/config.py`. -/
def defaultFiatConfig : FiatConfig :=
  { HIGH_RISK_COUNTRIES := ["North Korea", "Iran", "Afghanistan", "Syria", "Sudan",
                            "Yemen", "Venezuela", "Iraq", "Myanmar", "Libya"]
    TRANSACTION_FREQUENCY_LIMIT := 10
    ROUND_AMOUNT_MULTIPLE := 1000 }

/-- The database state the fiat script mutates: the active transaction
table, the alerts table and the archive table. -/
structure FiatDB where
  transactions : List FiatTxn
  alerts : List FiatAlert
  transactions_archive : List FiatTxn
deriving Repr, DecidableEq

/-- CTE `high_risk_countries` (lines 67-71): every row of the whole
`transactions` table whose country is in the configured list. -/
def high_risk_countries (cfg : FiatConfig) (tbl : List FiatTxn) : List FiatAlert :=
  (tbl.filter (fun t => cfg.HIGH_RISK_COUNTRIES.contains t.country)).map
    (fun t => { transaction_id := t.transaction_id, alert_type := "High-Risk Country" })

/-- Value of `LAG(transaction_date) OVER (PARTITION BY account_id ORDER BY
transaction_date)` for row `t`: the greatest transaction date strictly
before `t`'s among the same account's rows. This equals SQL's `LAG` whenever
the dates within an account are pairwise distinct (with tied dates SQL's row
order, and hence `LAG`, is unspecified). -/
def prev_transaction_date (tbl : List FiatTxn) (t : FiatTxn) : Option Int :=
  ((tbl.filter (fun u =>
      u.account_id == t.account_id &&
      decide (u.transaction_date < t.transaction_date))).map
    (fun u => u.transaction_date)).max?

/-- CTE `rapid_succession` (lines 72-83): rows of the whole table whose gap
to the previous same-account transaction exists and is under 60 seconds. -/
def rapid_succession (tbl : List FiatTxn) : List FiatAlert :=
  (tbl.filter (fun t =>
      match prev_transaction_date tbl t with
      | none => false
      | some p => decide (t.transaction_date - p < 60))).map
    (fun t => { transaction_id := t.transaction_id, alert_type := "Rapid Succession" })

/-- CTE `round_amount` (lines 84-88): rows whose amount is an exact multiple
of `ROUND_AMOUNT_MULTIPLE`. -/
def round_amount (cfg : FiatConfig) (tbl : List FiatTxn) : List FiatAlert :=
  (tbl.filter (fun t => decide (t.amount % cfg.ROUND_AMOUNT_MULTIPLE = 0))).map
    (fun t => { transaction_id := t.transaction_id, alert_type := "Round Amount" })

/-- Calendar-day bucket of `DATE(transaction_date)` for epoch-second
timestamps (UTC). -/
def dateOnly (ts : Int) : Int := ts / 86400

/-- CTE `high_frequency` (lines 89-98): rows whose `(account_id, calendar
day)` group, counted over the whole table, has more than
`TRANSACTION_FREQUENCY_LIMIT` rows. -/
def high_frequency (cfg : FiatConfig) (tbl : List FiatTxn) : List FiatAlert :=
  (tbl.filter (fun t =>
      decide ((tbl.filter (fun u =>
          u.account_id == t.account_id &&
          dateOnly u.transaction_date == dateOnly t.transaction_date)).length >
        cfg.TRANSACTION_FREQUENCY_LIMIT))).map
    (fun t => { transaction_id := t.transaction_id, alert_type := "High Frequency" })

/-- CTE `new_payees` (lines 99-108): rows whose `(account_id, payee_id)`
pair occurs exactly once in the whole table. -/
def new_payees (tbl : List FiatTxn) : List FiatAlert :=
  (tbl.filter (fun t =>
      (tbl.filter (fun u =>
          u.account_id == t.account_id && u.payee_id == t.payee_id)).length == 1)).map
    (fun t => { transaction_id := t.transaction_id, alert_type := "New Payee" })

/-- Lines 64-121, `generate_alerts`. The `transactions` DataFrame argument
is accepted but never used: every CTE of the query reads the full
`transactions` table through `conn`, with no `processed = 0` filter, and the
five alert streams are combined with `UNION ALL`. -/
def generate_alerts (cfg : FiatConfig) (_transactions : List FiatTxn)
    (tbl : List FiatTxn) : List FiatAlert :=
  high_risk_countries cfg tbl ++ rapid_succession tbl ++ round_amount cfg tbl ++
    high_frequency cfg tbl ++ new_payees tbl

/-- Lines 124-130, `log_alert`: inserts one alert row inside its own
`try/except`; a failing insert (modelled by `fails`) is only logged and
leaves the database unchanged. -/
def log_alert (fails : FiatAlert → Bool) (a : FiatAlert) (db : FiatDB) : FiatDB :=
  if fails a then db else { db with alerts := db.alerts ++ [a] }

/-- Lines 59-62, `mark_transactions_processed`: one transactional
`UPDATE ... SET processed = 1` per id of the batch. -/
def mark_transactions_processed (ids : List Nat) (db : FiatDB) : FiatDB :=
  { db with transactions := db.transactions.map (fun t =>
      if ids.contains t.transaction_id then { t with processed := true } else t) }

/-- Lines 35-57, `monitor_transactions`: fetch the rows with
`processed = 0`, return early if there are none, generate the alerts (over
the full table — see `generate_alerts`), insert each via `log_alert`, then
mark every id of the fetched batch processed. -/
def monitor_transactions (cfg : FiatConfig) (fails : FiatAlert → Bool)
    (db : FiatDB) : FiatDB :=
  let transactions := db.transactions.filter (fun t => !t.processed)
  if transactions.isEmpty then db
  else
    mark_transactions_processed (transactions.map (fun t => t.transaction_id))
      ((generate_alerts cfg transactions db.transactions).foldl
        (fun d a => log_alert fails a d) db)

/-- Lines 133-141, `archive_old_transactions`: copy the rows older than the
cutoff into `transactions_archive`, delete them from `transactions`, commit
both together. -/
def archive_old_transactions (archive_date : Int) (db : FiatDB) : FiatDB :=
  { db with
    transactions_archive := db.transactions_archive ++
      db.transactions.filter (fun t => decide (t.transaction_date < archive_date))
    transactions :=
      db.transactions.filter (fun t => !decide (t.transaction_date < archive_date)) }

end Fiat

/-! Concrete inputs used by the theorems below. -/

/-- Batch realising the spec's frequency-rule example: three transactions
from the same source address at `t`, `t+5min` and `t+20min`. -/
def freqBatch : List Crypto.Txn :=
  [ { transaction_id := "f1", from_address := "srcA", to_address := "dst1",
      value_usd := 100, transaction_date := 0, processed := false }
  , { transaction_id := "f2", from_address := "srcA", to_address := "dst2",
      value_usd := 100, transaction_date := 300, processed := false }
  , { transaction_id := "f3", from_address := "srcA", to_address := "dst3",
      value_usd := 100, transaction_date := 1200, processed := false } ]

/-- A store holding a single unprocessed, unremarkable transaction. -/
def dbOneUnprocessed : Crypto.CryptoDB :=
  { crypto_transactions :=
      [ { transaction_id := "t1", from_address := "a", to_address := "b",
          value_usd := 500, transaction_date := 0, processed := false } ]
    crypto_alerts := []
    crypto_transactions_archive := [] }

/-- A transaction matching both the value-threshold rule (20000 > 10000) and
the risk-list rule (its source is the first configured high-risk address). -/
def txnBothRules : Crypto.Txn :=
  { transaction_id := "t80", from_address := "1DkqkW9i9szEdSa7ZrM4q2eA6kWE2w2DSm",
    to_address := "dst", value_usd := 20000, transaction_date := 0, processed := false }

/-- First transaction of `clusterBatch`: the edge between entities `n1` and
`n2`. -/
def clusterTxn1 : Crypto.Txn :=
  { transaction_id := "g1", from_address := "n1", to_address := "n2",
    value_usd := 100, transaction_date := 0, processed := false }

/-- Batch of six transactions forming a path over seven entities, a single
connected component of 7 > 5 nodes, well inside the graph-size bound. -/
def clusterBatch : List Crypto.Txn :=
  clusterTxn1 ::
  [ { transaction_id := "g2", from_address := "n2", to_address := "n3",
      value_usd := 100, transaction_date := 10, processed := false }
  , { transaction_id := "g3", from_address := "n3", to_address := "n4",
      value_usd := 100, transaction_date := 20, processed := false }
  , { transaction_id := "g4", from_address := "n4", to_address := "n5",
      value_usd := 100, transaction_date := 30, processed := false }
  , { transaction_id := "g5", from_address := "n5", to_address := "n6",
      value_usd := 100, transaction_date := 40, processed := false }
  , { transaction_id := "g6", from_address := "n6", to_address := "n7",
      value_usd := 100, transaction_date := 50, processed := false } ]

/-- A second path batch (ids `h1`-`h6`, entities `m1`-`m7`), again one
component of 7 > 5 nodes within the size bound. -/
def bigClusterBatch : List Crypto.Txn :=
  [ { transaction_id := "h1", from_address := "m1", to_address := "m2",
      value_usd := 100, transaction_date := 0, processed := false }
  , { transaction_id := "h2", from_address := "m2", to_address := "m3",
      value_usd := 100, transaction_date := 10, processed := false }
  , { transaction_id := "h3", from_address := "m3", to_address := "m4",
      value_usd := 100, transaction_date := 20, processed := false }
  , { transaction_id := "h4", from_address := "m4", to_address := "m5",
      value_usd := 100, transaction_date := 30, processed := false }
  , { transaction_id := "h5", from_address := "m5", to_address := "m6",
      value_usd := 100, transaction_date := 40, processed := false }
  , { transaction_id := "h6", from_address := "m6", to_address := "m7",
      value_usd := 100, transaction_date := 50, processed := false } ]

/-- An already-reviewed transaction from a configured high-risk country. -/
def reviewedIranTxn : Fiat.FiatTxn :=
  { transaction_id := 1, account_id := 10, amount := 700, transaction_date := 1000,
    country := "Iran", payee_id := 20, processed := true }

/-- A fresh, unprocessed, unremarkable transaction (non-risk country,
non-round amount, far-away date, distinct account). -/
def newFranceTxn : Fiat.FiatTxn :=
  { transaction_id := 2, account_id := 11, amount := 501, transaction_date := 200000,
    country := "France", payee_id := 21, processed := false }

/-- A fiat store in which transaction 1 is already reviewed and only
transaction 2 is pending. -/
def fiatStore : Fiat.FiatDB :=
  { transactions := [reviewedIranTxn, newFranceTxn], alerts := [],
    transactions_archive := [] }

/-- A transaction strictly older than the cutoff `100` used below. -/
def oldTxn : Crypto.Txn :=
  { transaction_id := "old1", from_address := "a", to_address := "b",
    value_usd := 50, transaction_date := 10, processed := true }

/-- A transaction inside the retention window for the cutoff `100`. -/
def recentTxn : Crypto.Txn :=
  { transaction_id := "new1", from_address := "c", to_address := "d",
    value_usd := 60, transaction_date := 150, processed := false }

/-- A store with one old and one recent transaction and an empty archive. -/
def dbArch : Crypto.CryptoDB :=
  { crypto_transactions := [oldTxn, recentTxn], crypto_alerts := [],
    crypto_transactions_archive := [] }

/-! Theorems settling the claims. -/

/-- C4: the claim says the frequency rule flags exactly the transactions
whose gap to the previous same-source transaction is under the configured
duration, and that on the `t, t+5min, t+20min` example only the second is
flagged. On the code, `detect_frequent_transactions` raises an exception on
every non-empty batch (the lambda's `.diff()` subtracts string columns and
`.transaction_date` names a column that was moved to the index), so on this
example it flags nothing and instead aborts the whole pass. -/
theorem frequency_detector_raises_on_spec_example :
    Crypto.detect_frequent_transactions freqBatch =
      Except.error Crypto.PyErr.diffOnIndexedFrame ∧ freqBatch.length = 3 := by
  decide

/-- C5: the claim says every pass over a non-empty batch invokes
`mark_transactions_processed` exactly once, after alerting. In the crypto
variant, the exception raised by `detect_frequent_transactions` (line 63)
reaches the pass's `except` handler before the alert loop and before
`mark_transactions_processed` (line 72), so over this non-empty batch the
pass leaves the store — including every `processed` flag — unchanged and
marks nothing at all. -/
theorem crypto_pass_marks_nothing :
    Crypto.analyze_transactions Crypto.defaultCryptoConfig (fun _ => false)
        dbOneUnprocessed = dbOneUnprocessed ∧
    dbOneUnprocessed.crypto_transactions.filter (fun t => !t.processed) ≠ [] := by
  decide

/-- C6: the claim says a transaction matching both the value-threshold rule
(+30) and the risk-list rule (+50) scores exactly 80. `txnBothRules` matches
both rules, yet `calculate_risk_score` raises instead of returning a score:
line 115 invokes the graph detector on `pd.DataFrame()`, whose missing
`from_address`/`to_address`/`value_usd` columns make
`nx.from_pandas_edgelist` raise before `min(score, 100)` is reached. -/
theorem risk_score_errors_instead_of_80 :
    txnBothRules.value_usd > Crypto.defaultCryptoConfig.THRESHOLD_VALUE_USD ∧
    Crypto.defaultCryptoConfig.HIGH_RISK_ADDRESSES.contains txnBothRules.from_address = true ∧
    Crypto.calculate_risk_score Crypto.defaultCryptoConfig txnBothRules =
      Except.error (Crypto.PyErr.missingColumn "from_address") := by
  decide

/-- C2: the claim says the scorer's cluster-membership contribution reflects
the current batch's graph-detector output and that the scorer never
re-invokes a detector on an empty or unrelated dataset. On the code, the
current batch's graph detector flags `clusterTxn1`'s edge, yet
`calculate_risk_score` — whose type shows it never receives the batch or its
matched rule tags — re-invokes `detect_complex_patterns` on an empty
DataFrame (line 115) and thereby raises, so the cluster contribution never
reflects the batch output. -/
theorem scorer_ignores_batch_graph_output :
    ({ from_address := "n1", to_address := "n2", transaction_id := none } : Crypto.EdgeRow) ∈
      Crypto.detect_complex_patterns Crypto.defaultCryptoConfig clusterBatch ∧
    Crypto.calculate_risk_score Crypto.defaultCryptoConfig clusterTxn1 =
      Except.error (Crypto.PyErr.missingColumn "from_address") := by
  decide

/-- C3: the claim says the flagged set of the graph detector is exactly the
transaction ids of the edges of the oversized components. On
`bigClusterBatch` (one component of 7 > 5 entities, inside the size bound)
the detector does flag all six edges, but every extracted `transaction_id`
is `None`: line 92 stores only `value_usd` as edge data, so line 103's
`x.get('transaction_id')` cannot recover the ids `h1`–`h6`. -/
theorem graph_detector_ids_all_none :
    (Crypto.detect_complex_patterns Crypto.defaultCryptoConfig bigClusterBatch).length = 6 ∧
    ∀ e ∈ Crypto.detect_complex_patterns Crypto.defaultCryptoConfig bigClusterBatch,
      e.transaction_id = none := by
  decide

/-- C1: the claim says a transaction marked reviewed is excluded from all
future detection passes and never re-flagged. In the fiat variant,
`generate_alerts` ignores its batch argument and queries the whole
`transactions` table with no `processed` filter, so a pass whose batch is
just the new transaction 2 re-flags the already-reviewed transaction 1 from
the same cause (`High-Risk Country`) and records a fresh alert for it. -/
theorem reviewed_transaction_reflagged :
    reviewedIranTxn.processed = true ∧
    ({ transaction_id := 1, alert_type := "High-Risk Country" } : Fiat.FiatAlert) ∈
      (Fiat.monitor_transactions Fiat.defaultFiatConfig (fun _ => false) fiatStore).alerts := by
  decide

/-- C7: after one archiver invocation with cutoff `cutoff`, every active
transaction strictly older than the cutoff is in the archive and gone from
the active store, every active transaction at or inside the window is still
in the active store and not in the archive, the set of visible transactions
is unchanged, and (given that the two stores were disjoint beforehand) no
transaction ends up in both stores or in neither. -/
theorem archiver_partitions_by_cutoff (db : Crypto.CryptoDB) (cutoff : Int)
    (hdisj : ∀ t ∈ db.crypto_transactions, t ∉ db.crypto_transactions_archive) :
    ∀ t : Crypto.Txn,
      (t ∈ db.crypto_transactions → t.transaction_date < cutoff →
        t ∈ (Crypto.archive_old_transactions cutoff db).crypto_transactions_archive ∧
        t ∉ (Crypto.archive_old_transactions cutoff db).crypto_transactions) ∧
      (t ∈ db.crypto_transactions → cutoff ≤ t.transaction_date →
        t ∈ (Crypto.archive_old_transactions cutoff db).crypto_transactions ∧
        t ∉ (Crypto.archive_old_transactions cutoff db).crypto_transactions_archive) ∧
      ((t ∈ db.crypto_transactions ∨ t ∈ db.crypto_transactions_archive) ↔
        (t ∈ (Crypto.archive_old_transactions cutoff db).crypto_transactions ∨
         t ∈ (Crypto.archive_old_transactions cutoff db).crypto_transactions_archive)) ∧
      ¬(t ∈ (Crypto.archive_old_transactions cutoff db).crypto_transactions ∧
        t ∈ (Crypto.archive_old_transactions cutoff db).crypto_transactions_archive) := by
  intro t
  have hd := hdisj t
  unfold Crypto.archive_old_transactions
  simp only [List.mem_append, List.mem_filter, decide_eq_true_eq, Bool.not_eq_true',
    decide_eq_false_iff_not, ← Int.not_lt]
  tauto

/-- Witness for C7 at a concrete store and cutoff: the old transaction is
moved to the archive and the recent one stays active. -/
theorem archiver_partitions_by_cutoff_witness :
    (oldTxn ∈ (Crypto.archive_old_transactions 100 dbArch).crypto_transactions_archive ∧
      oldTxn ∉ (Crypto.archive_old_transactions 100 dbArch).crypto_transactions) ∧
    (recentTxn ∈ (Crypto.archive_old_transactions 100 dbArch).crypto_transactions ∧
      recentTxn ∉ (Crypto.archive_old_transactions 100 dbArch).crypto_transactions_archive) :=
  ⟨(archiver_partitions_by_cutoff dbArch 100 (by decide) oldTxn).1 (by decide) (by decide),
   ((archiver_partitions_by_cutoff dbArch 100 (by decide) recentTxn).2.1 (by decide) (by decide))⟩

/-- C9: membership of a transaction's id in the value-threshold rule's
output is equivalent to its amount being strictly greater than the
configured threshold, for any batch with pairwise-distinct ids. -/
theorem value_threshold_iff_amount_gt (cfg : Crypto.CryptoConfig)
    (transactions : List Crypto.Txn) (t : Crypto.Txn) (hmem : t ∈ transactions)
    (hnodup : (transactions.map (fun u => u.transaction_id)).Nodup) :
    t.transaction_id ∈
        (Crypto.flagged_threshold cfg transactions).map (fun u => u.transaction_id) ↔
      t.value_usd > cfg.THRESHOLD_VALUE_USD := by
  constructor
  · intro h
    rcases List.mem_map.mp h with ⟨u, hu, hid⟩
    rcases List.mem_filter.mp hu with ⟨humem, hcond⟩
    have huv : u = t := List.inj_on_of_nodup_map hnodup humem hmem hid
    rw [← huv]
    exact of_decide_eq_true hcond
  · intro h
    exact List.mem_map.mpr ⟨t, List.mem_filter.mpr ⟨hmem, decide_eq_true h⟩, rfl⟩

/-- Witness for C9 on a two-transaction batch: the over-threshold
transaction's id is flagged, the under-threshold one's is not. -/
theorem value_threshold_iff_amount_gt_witness :
    (txnBothRules.transaction_id ∈
        (Crypto.flagged_threshold Crypto.defaultCryptoConfig [txnBothRules, clusterTxn1]).map
          (fun u => u.transaction_id) ↔
      txnBothRules.value_usd > Crypto.defaultCryptoConfig.THRESHOLD_VALUE_USD) ∧
    (clusterTxn1.transaction_id ∈
        (Crypto.flagged_threshold Crypto.defaultCryptoConfig [txnBothRules, clusterTxn1]).map
          (fun u => u.transaction_id) ↔
      clusterTxn1.value_usd > Crypto.defaultCryptoConfig.THRESHOLD_VALUE_USD) :=
  ⟨value_threshold_iff_amount_gt Crypto.defaultCryptoConfig [txnBothRules, clusterTxn1]
      txnBothRules (by decide) (by decide),
   value_threshold_iff_amount_gt Crypto.defaultCryptoConfig [txnBothRules, clusterTxn1]
      clusterTxn1 (by decide) (by decide)⟩

/-- Fiat `log_alert` only ever touches the alerts table: the transaction and
archive tables are unchanged whether or not the insert fails. -/
theorem fiat_log_alert_tables (fails : Fiat.FiatAlert → Bool) (a : Fiat.FiatAlert)
    (db : Fiat.FiatDB) :
    (Fiat.log_alert fails a db).transactions = db.transactions ∧
    (Fiat.log_alert fails a db).transactions_archive = db.transactions_archive := by
  unfold Fiat.log_alert
  split <;> exact ⟨rfl, rfl⟩

/-- Folding the fiat alert loop over a list of alerts appends exactly the
alerts whose insert does not fail, and leaves the other tables unchanged. -/
theorem fiat_alert_loop_spec (fails : Fiat.FiatAlert → Bool)
    (alerts : List Fiat.FiatAlert) :
    ∀ db : Fiat.FiatDB,
      ((alerts.foldl (fun d a => Fiat.log_alert fails a d) db).alerts =
        db.alerts ++ alerts.filter (fun a => !fails a)) ∧
      ((alerts.foldl (fun d a => Fiat.log_alert fails a d) db).transactions =
        db.transactions) := by
  induction alerts with
  | nil => intro db; simp
  | cons a rest ih =>
    intro db
    rcases ih (Fiat.log_alert fails a db) with ⟨h1, h2⟩
    simp only [List.foldl_cons, List.filter_cons]
    by_cases h : fails a
    · refine ⟨?_, ?_⟩
      · rw [h1]
        simp [Fiat.log_alert, h]
      · rw [h2, (fiat_log_alert_tables fails a db).1]
    · refine ⟨?_, ?_⟩
      · rw [h1]
        simp [Fiat.log_alert, h, List.append_assoc]
      · rw [h2, (fiat_log_alert_tables fails a db).1]

/-- C8: in the fiat pass over a non-empty batch, per-alert insert failures
(any subset of the generated alerts, described by `fails`) are swallowed by
`log_alert`'s own handler: every alert whose insert does not fail is still
recorded, and the batch's transactions are all marked processed regardless. -/
theorem alert_failure_does_not_abort_batch (cfg : Fiat.FiatConfig)
    (fails : Fiat.FiatAlert → Bool) (db : Fiat.FiatDB)
    (hne : db.transactions.filter (fun t => !t.processed) ≠ []) :
    ((Fiat.monitor_transactions cfg fails db).alerts =
      db.alerts ++
        (Fiat.generate_alerts cfg (db.transactions.filter (fun t => !t.processed))
          db.transactions).filter (fun a => !fails a)) ∧
    ((Fiat.monitor_transactions cfg fails db).transactions =
      db.transactions.map (fun t =>
        if ((db.transactions.filter (fun u => !u.processed)).map
              (fun u => u.transaction_id)).contains t.transaction_id
        then { t with processed := true } else t)) := by
  unfold Fiat.monitor_transactions
  rw [if_neg (by simpa [List.isEmpty_iff] using hne)]
  rcases fiat_alert_loop_spec fails
      (Fiat.generate_alerts cfg (db.transactions.filter (fun t => !t.processed))
        db.transactions) db with ⟨h1, h2⟩
  exact ⟨h1, by rw [Fiat.mark_transactions_processed, h2]⟩

/-- Witness for C8 on `fiatStore` with every alert about transaction 1
failing to insert: the surviving alerts are exactly the non-failing ones and
the pending transaction 2 is still marked processed. -/
theorem alert_failure_does_not_abort_batch_witness :
    ((Fiat.monitor_transactions Fiat.defaultFiatConfig
        (fun a => a.transaction_id == 1) fiatStore).alerts =
      fiatStore.alerts ++
        (Fiat.generate_alerts Fiat.defaultFiatConfig
          (fiatStore.transactions.filter (fun t => !t.processed))
          fiatStore.transactions).filter (fun a => !(a.transaction_id == 1))) ∧
    ((Fiat.monitor_transactions Fiat.defaultFiatConfig
        (fun a => a.transaction_id == 1) fiatStore).transactions =
      fiatStore.transactions.map (fun t =>
        if ((fiatStore.transactions.filter (fun u => !u.processed)).map
              (fun u => u.transaction_id)).contains t.transaction_id
        then { t with processed := true } else t)) :=
  alert_failure_does_not_abort_batch Fiat.defaultFiatConfig
    (fun a => a.transaction_id == 1) fiatStore (by decide)

/-- Crypto `log_alert` only ever touches the alerts table. -/
theorem crypto_log_alert_transactions (fails : Crypto.CryptoAlert → Bool)
    (tid : String) (s : Int) (db : Crypto.CryptoDB) :
    (Crypto.log_alert fails tid s db).crypto_transactions = db.crypto_transactions := by
  simp only [Crypto.log_alert]
  split <;> rfl

/-- Crypto `log_alert` appends at most one alert, and that alert carries the
id it was called with. -/
theorem crypto_log_alert_alerts (fails : Crypto.CryptoAlert → Bool)
    (tid : String) (s : Int) (db : Crypto.CryptoDB) :
    ∃ added : List Crypto.CryptoAlert,
      (Crypto.log_alert fails tid s db).crypto_alerts = db.crypto_alerts ++ added ∧
      ∀ a ∈ added, a.transaction_id = tid := by
  by_cases h : fails ⟨tid, Crypto.alert_type_of s, s⟩
  · exact ⟨[], by simp [Crypto.log_alert, h], by simp⟩
  · exact ⟨[⟨tid, Crypto.alert_type_of s, s⟩], by simp [Crypto.log_alert, h], by simp⟩

/-- If the scorer succeeds on every element of `pre` and raises on `t`, the
scoring loop of lines 68-71 stops at `t` with the abort flag set, having
recorded alerts only for elements of `pre` and having left the transaction
table untouched. -/
theorem crypto_score_loop_error_spec (score : Crypto.Txn → Except Crypto.PyErr Int)
    (fails : Crypto.CryptoAlert → Bool) (t : Crypto.Txn) (post : List Crypto.Txn)
    (e : Crypto.PyErr) (ht : score t = Except.error e) :
    ∀ (pre : List Crypto.Txn) (db : Crypto.CryptoDB),
      (∀ u ∈ pre, ∃ s, score u = Except.ok s) →
      (Crypto.processFlagged score fails (pre ++ t :: post) db).2 = true ∧
      (Crypto.processFlagged score fails (pre ++ t :: post) db).1.crypto_transactions =
        db.crypto_transactions ∧
      ∃ preAlerts : List Crypto.CryptoAlert,
        (Crypto.processFlagged score fails (pre ++ t :: post) db).1.crypto_alerts =
          db.crypto_alerts ++ preAlerts ∧
        ∀ a ∈ preAlerts, a.transaction_id ∈ pre.map (fun u => u.transaction_id) := by
  intro pre
  induction pre with
  | nil =>
    intro db _
    refine ⟨?_, ?_, [], ?_, ?_⟩ <;> simp [Crypto.processFlagged, ht]
  | cons u rest ih =>
    intro db hpre
    obtain ⟨s, hs⟩ := hpre u (by simp)
    obtain ⟨h2, htr, preA, halerts, hids⟩ :=
      ih (Crypto.log_alert fails u.transaction_id s db)
        (fun v hv => hpre v (List.mem_cons_of_mem u hv))
    have hstep : Crypto.processFlagged score fails ((u :: rest) ++ t :: post) db =
        Crypto.processFlagged score fails (rest ++ t :: post)
          (Crypto.log_alert fails u.transaction_id s db) := by
      simp only [List.cons_append, Crypto.processFlagged, hs, List.append_eq]
    rw [hstep]
    refine ⟨h2, ?_, ?_⟩
    · rw [htr, crypto_log_alert_transactions]
    · obtain ⟨added, haddeq, haddid⟩ :=
        crypto_log_alert_alerts fails u.transaction_id s db
      refine ⟨added ++ preA, ?_, ?_⟩
      · rw [halerts, haddeq, List.append_assoc]
      · intro a ha
        rcases List.mem_append.mp ha with h | h
        · simp [haddid a h]
        · simp only [List.map_cons]
          exact List.mem_cons_of_mem _ (hids a h)

/-- C10: if, during the crypto scoring-and-alerting loop, computing the risk
score of some flagged transaction `t` raises (with every flagged transaction
before it scored successfully), then the pass aborts at `t`: the transaction
table — and hence every `processed` flag, so the batch fetched by the next
interval — is unchanged, and the only alerts recorded are for flagged
transactions strictly before `t`; none is recorded for `t` or any later one,
and `mark_transactions_processed` never runs. -/
theorem score_error_aborts_alerting_and_marking
    (score : Crypto.Txn → Except Crypto.PyErr Int) (fails : Crypto.CryptoAlert → Bool)
    (pre : List Crypto.Txn) (t : Crypto.Txn) (post : List Crypto.Txn)
    (batchIds : List String) (db : Crypto.CryptoDB) (e : Crypto.PyErr)
    (hpre : ∀ u ∈ pre, ∃ s, score u = Except.ok s)
    (ht : score t = Except.error e) :
    ((Crypto.alertAndMark score fails (pre ++ t :: post) batchIds db).crypto_transactions =
      db.crypto_transactions) ∧
    ∃ preAlerts : List Crypto.CryptoAlert,
      ((Crypto.alertAndMark score fails (pre ++ t :: post) batchIds db).crypto_alerts =
        db.crypto_alerts ++ preAlerts) ∧
      ∀ a ∈ preAlerts, a.transaction_id ∈ pre.map (fun u => u.transaction_id) := by
  obtain ⟨h2, htr, preA, halerts, hids⟩ :=
    crypto_score_loop_error_spec score fails t post e ht pre db hpre
  unfold Crypto.alertAndMark
  rcases hp : Crypto.processFlagged score fails (pre ++ t :: post) db with ⟨db1, b⟩
  rw [hp] at h2 htr halerts
  subst h2
  exact ⟨htr, preA, halerts, hids⟩

/-- Witness for C10: the real scorer `calculate_risk_score` raises on the
very first flagged transaction, so the loop over `[txnBothRules]` leaves the
store's transaction table exactly as it was. -/
theorem score_error_aborts_alerting_and_marking_witness :
    (Crypto.alertAndMark (Crypto.calculate_risk_score Crypto.defaultCryptoConfig)
        (fun _ => false) [txnBothRules] ["t1"] dbOneUnprocessed).crypto_transactions =
      dbOneUnprocessed.crypto_transactions :=
  (score_error_aborts_alerting_and_marking
    (Crypto.calculate_risk_score Crypto.defaultCryptoConfig) (fun _ => false)
    [] txnBothRules [] ["t1"] dbOneUnprocessed (Crypto.PyErr.missingColumn "from_address")
    (by simp) (by rfl)).1
